import Mathlib

/-!
Verification of the E-Waste-Management web application (`src/app.py`)
against its natural-language specification.

The application is a Flask app with two SQLAlchemy tables (`users`,
`pickups`) and a handful of request handlers.  We embed the data model
and the handlers shallowly: the database is a pair of lists, the HTTP
form is an association list, the session is an `Option` of a user id,
and each handler is a pure function from (session, form, database) to
an updated database, session, and response.

Two points of the source are embedded with care:

* Decorator order.  In `app.py` the handlers `schedule_post`
  (line 379), `admin_requests` (line 402) and `update_status`
  (line 410) carry `@login_required` ABOVE the route-registration
  decorator.  Decorators apply bottom-up, so Flask registers the
  unwrapped view function; the `login_required` wrapper is applied to a
  function that is then discarded.  An unauthenticated request
  therefore reaches the handler body, where `current_user` is the
  anonymous user, and the attribute access `current_user.id`
  (resp. `current_user.is_admin`) raises `AttributeError`, which Flask
  turns into a 500 server-error response; no database write happens.
  We embed this as `Response.serverError` with the database unchanged.
  `logout` (line 451) and `my_pickups` (line 457) have the decorators
  in the correct order, so there `login_required` is effective and an
  unauthenticated request is redirected to the login view.

* Password hashing.  `werkzeug.security.generate_password_hash` /
  `check_password_hash` are opaque salted one-way functions; the
  handlers only ever pass them around.  We parameterise `register_post`
  by the hash function and `login_post` by the check function, exactly
  as the source treats them: `register` stores `hash password`
  (`set_password`, line 36-37) and `login` branches on
  `check stored_hash password` (`check_password`, line 39-40).

Python's `str.strip()` is embedded as `pyStrip` and `str.lower()` as
`pyLower`, defined below over the character list (they agree with
Python on ASCII input, which is all the spec and the claims
exercise).  `request.form.get(k)` on a `MultiDict` is
the first value bound to `k`, embedded as `List.lookup` on an
association list; `x or ""` maps `None` and `""` alike to `""`,
embedded as `Option.getD "" ` (the two agree because `"" or ""` is
`""`).
-/

namespace EWaste

/-- Python `str.strip()`: drop leading and trailing whitespace.
(Defined over the character list so that proofs can evaluate it;
`String.trim` agrees on ASCII input but does not kernel-reduce.) -/
def pyStrip (s : String) : String :=
  String.mk (((s.data.dropWhile Char.isWhitespace).reverse.dropWhile
    Char.isWhitespace).reverse)

/-- Python `str.lower()`: lowercase every character. -/
def pyLower (s : String) : String :=
  String.mk (s.data.map Char.toLower)

/-- The `users` table row (`class User`, app.py lines 29-34):
integer primary key, unique email, password hash, admin flag. -/
structure User where
  id : Nat
  email : String
  password_hash : String
  is_admin : Bool
deriving DecidableEq, Repr

/-- The `pickups` table row (`class Pickup`, app.py lines 42-53):
integer primary key, non-nullable owner foreign key, free-text contact
and item fields, ISO date string, status string (default "Scheduled"). -/
structure Pickup where
  id : Nat
  user_id : Nat
  name : String
  email : String
  address : String
  item : String
  date : String
  status : String
deriving DecidableEq, Repr

/-- The database: the two tables plus the autoincrement counters that
SQLAlchemy keeps for the integer primary keys. -/
structure Db where
  users : List User
  pickups : List Pickup
  nextUserId : Nat
  nextPickupId : Nat
deriving DecidableEq, Repr

/-- An HTTP response, one constructor per distinct outcome a handler
can produce (which template is rendered with which data, redirects,
Flask's 404, and an unhandled-exception 500). -/
inductive Response where
  | renderRegisterForm
  | renderLoginForm
  | renderConfirm (rid : Nat) (name : String)
  | renderAdminList (requests : List Pickup)
  | renderMyPickups (requests : List Pickup)
  | redirectIndex
  | redirectAdminRequests
  | redirectLogin
  | notFound
  | serverError
deriving DecidableEq, Repr

/-- Submitted form data: `request.form`, a multidict from field names
to string values; `get` returns the first binding. -/
def Form : Type := List (String × String)

/-- `request.form.get(k)`: first value bound to `k`, or `None`. -/
def formGet (f : Form) (k : String) : Option String :=
  List.lookup k f

/-- `(request.form.get(k) or "")`: Python maps both a missing field and
an empty value to `""`. -/
def formGetD (f : Form) (k : String) : String :=
  (formGet f k).getD ""

/-- The session: `flask_login` stores the logged-in user's id (or
nothing).  `current_user` is resolved through `load_user`
(app.py lines 58-60), i.e. a primary-key lookup in the users table;
a session id that matches no row yields the anonymous user (`none`). -/
def currentUser (db : Db) (sess : Option Nat) : Option User :=
  match sess with
  | none => none
  | some uid => db.users.find? (fun u => u.id == uid)

/-- `(request.form.get("email") or "").strip().lower()` as performed by
both `register` (line 425) and `login` (line 443). -/
def normEmail (f : Form) : String :=
  pyLower (pyStrip (formGetD f "email"))

/-- `bool(request.form.get("is_admin"))` (line 427): `None` and the
empty string are falsy, any other string is truthy. -/
def truthy (v : Option String) : Bool :=
  match v with
  | none => false
  | some s => !(s == "")

/-- `POST /schedule` handler `schedule_post` (app.py lines 379-400).
Because `@login_required` sits above `@app.post`, the registered view
is the unwrapped function: with no authenticated user,
`current_user.id` (line 389) raises `AttributeError` before
`db.session.add`, so the request fails with a 500 and the database is
untouched.  With an authenticated user it trims the five form fields,
inserts a Pickup owned by that user with status "Scheduled", and
renders the confirmation page with the new row's id and the name. -/
def schedule_post (sess : Option Nat) (f : Form) (db : Db) : Db × Response :=
  match currentUser db sess with
  | none => (db, Response.serverError)
  | some u =>
      let name := pyStrip (formGetD f "name")
      let email := pyStrip (formGetD f "email")
      let address := pyStrip (formGetD f "address")
      let item := pyStrip (formGetD f "item")
      let date := pyStrip (formGetD f "date")
      let p : Pickup :=
        { id := db.nextPickupId, user_id := u.id, name := name,
          email := email, address := address, item := item,
          date := date, status := "Scheduled" }
      ({ db with pickups := db.pickups ++ [p],
                 nextPickupId := db.nextPickupId + 1 },
       Response.renderConfirm p.id name)

/-- `Pickup.id.desc()` ordering: the descending-by-id relation used by
`admin_requests` and `my_pickups`. -/
def idDesc (a b : Pickup) : Prop := b.id ≤ a.id

instance : DecidableRel idDesc := fun a b =>
  inferInstanceAs (Decidable (b.id ≤ a.id))

instance : IsTotal Pickup idDesc :=
  ⟨fun a b => (Nat.le_total b.id a.id)⟩

instance : IsTrans Pickup idDesc :=
  ⟨fun _ _ _ hab hbc => Nat.le_trans hbc hab⟩

/-- `query.order_by(Pickup.id.desc()).all()`: the rows sorted by id
descending. -/
def orderByIdDesc (ps : List Pickup) : List Pickup :=
  ps.insertionSort idDesc

/-- `GET /requests` handler `admin_requests` (app.py lines 402-408).
Decorator order again leaves the view unwrapped: with no authenticated
user, `current_user.is_admin` (line 405) raises (500).  An
authenticated non-admin is redirected home; an admin gets all pickups
ordered by id descending.  The handler performs no write, so it
returns the database unchanged in every branch. -/
def admin_requests (sess : Option Nat) (db : Db) : Db × Response :=
  match currentUser db sess with
  | none => (db, Response.serverError)
  | some u =>
      if u.is_admin then
        (db, Response.renderAdminList (orderByIdDesc db.pickups))
      else
        (db, Response.redirectIndex)

/-- `POST /requests/<int:pickup_id>/status` handler `update_status`
(app.py lines 410-420).  Unwrapped view (decorator order): anonymous →
500.  Non-admin → redirect home.  Otherwise `get_or_404` looks up the
pickup by primary key (404 if absent); the submitted status is
trimmed; if non-empty it overwrites the row's status field and
commits, else nothing is written; either way the handler redirects to
the admin list. -/
def update_status (sess : Option Nat) (pickup_id : Nat) (f : Form)
    (db : Db) : Db × Response :=
  match currentUser db sess with
  | none => (db, Response.serverError)
  | some u =>
      if u.is_admin then
        match db.pickups.find? (fun p => p.id == pickup_id) with
        | none => (db, Response.notFound)
        | some _ =>
            let new_status := pyStrip (formGetD f "status")
            if new_status == "" then
              (db, Response.redirectAdminRequests)
            else
              ({ db with pickups :=
                   db.pickups.map (fun p =>
                     if p.id == pickup_id then
                       { p with status := new_status }
                     else p) },
               Response.redirectAdminRequests)
      else
        (db, Response.redirectIndex)

/-- `POST /register` handler `register` (app.py lines 422-438),
parameterised by the opaque password-hash function.  Email is trimmed
and lowercased; an empty email or password, or an existing user with
the same email, re-renders the registration form with nothing written
and the session untouched.  Otherwise a User row is inserted with
`is_admin = bool(form.get("is_admin"))`, the new user is logged in
(`login_user`, line 436) and the handler redirects home.
Result: (database, session, response). -/
def register_post (hash : String → String) (f : Form) (db : Db)
    (sess : Option Nat) : Db × Option Nat × Response :=
  let email := normEmail f
  let password := formGetD f "password"
  let is_admin := truthy (formGet f "is_admin")
  if email == "" || password == "" then
    (db, sess, Response.renderRegisterForm)
  else if (db.users.find? (fun u => u.email == email)).isSome then
    (db, sess, Response.renderRegisterForm)
  else
    let u : User :=
      { id := db.nextUserId, email := email,
        password_hash := hash password, is_admin := is_admin }
    ({ db with users := db.users ++ [u], nextUserId := db.nextUserId + 1 },
     some u.id, Response.redirectIndex)

/-- `POST /login` handler `login` (app.py lines 440-449), parameterised
by the opaque password-check function.  Looks up the first user with
the trimmed, lowercased email; if one exists and the password check
succeeds, the session becomes that user and the handler redirects
home; otherwise the login form is re-rendered and the session is left
as it was.  The handler performs no database write.
Result: (session, response). -/
def login_post (check : String → String → Bool) (f : Form) (db : Db)
    (sess : Option Nat) : Option Nat × Response :=
  let email := normEmail f
  let password := formGetD f "password"
  match db.users.find? (fun u => u.email == email) with
  | some u =>
      if check u.password_hash password then
        (some u.id, Response.redirectIndex)
      else
        (sess, Response.renderLoginForm)
  | none => (sess, Response.renderLoginForm)

/-- `GET /my-pickups` handler `my_pickups` (app.py lines 457-461).
Here the decorators are in the effective order, so an unauthenticated
request is redirected to the login view.  Otherwise the handler
returns the pickups whose `user_id` is the current user's id, ordered
by id descending.  No write. -/
def my_pickups (sess : Option Nat) (db : Db) : Db × Response :=
  match currentUser db sess with
  | none => (db, Response.redirectLogin)
  | some u =>
      (db, Response.renderMyPickups
        (orderByIdDesc (db.pickups.filter (fun p => p.user_id == u.id))))

/-- Frame relation for `update_status`: `ps'` has the same rows as
`ps` position by position, each agreeing on every field except
possibly `status`, and agreeing on `status` too whenever the row's id
is not `pid`. -/
def framePreserved (pid : Nat) (ps ps' : List Pickup) : Prop :=
  ps'.length = ps.length ∧
  ∀ i (hi : i < ps.length) (hi' : i < ps'.length),
    (ps'.get ⟨i, hi'⟩).id = (ps.get ⟨i, hi⟩).id ∧
    (ps'.get ⟨i, hi'⟩).user_id = (ps.get ⟨i, hi⟩).user_id ∧
    (ps'.get ⟨i, hi'⟩).name = (ps.get ⟨i, hi⟩).name ∧
    (ps'.get ⟨i, hi'⟩).email = (ps.get ⟨i, hi⟩).email ∧
    (ps'.get ⟨i, hi'⟩).address = (ps.get ⟨i, hi⟩).address ∧
    (ps'.get ⟨i, hi'⟩).item = (ps.get ⟨i, hi⟩).item ∧
    (ps'.get ⟨i, hi'⟩).date = (ps.get ⟨i, hi⟩).date ∧
    ((ps.get ⟨i, hi⟩).id ≠ pid →
      (ps'.get ⟨i, hi'⟩).status = (ps.get ⟨i, hi⟩).status)

/-! Concrete rows and databases used by the witness theorems. -/

def adminUser : User :=
  { id := 1, email := "admin@x.com", password_hash := "H1", is_admin := true }

def aliceUser : User :=
  { id := 2, email := "a@x.com", password_hash := "H2", is_admin := false }

def samplePickup : Pickup :=
  { id := 1, user_id := 2, name := "A", email := "a@x.com",
    address := "1 St", item := "Laptop", date := "2024-01-01",
    status := "Scheduled" }

def sampleDb : Db :=
  { users := [adminUser, aliceUser], pickups := [samplePickup],
    nextUserId := 3, nextPickupId := 2 }

def emptyDb : Db :=
  { users := [], pickups := [], nextUserId := 1, nextPickupId := 1 }

def schedForm : Form :=
  [("name", "A"), ("email", "a@x.com"), ("address", "1 St"),
   ("item", "Laptop"), ("date", "2024-01-01")]

def regForm : Form := [("email", "B@x.com "), ("password", "pw1")]

def regFormDup : Form := [("email", " b@X.com"), ("password", "other")]

def loginBadForm : Form := [("email", "admin@x.com"), ("password", "wrong")]

def regAdminForm : Form :=
  [("email", "c@x.com"), ("password", "pw"), ("is_admin", "on")]

def regAdminEmptyForm : Form :=
  [("email", "c@x.com"), ("password", "pw"), ("is_admin", "")]

/-! Helper lemmas. -/

/-- `find?` through the status-overwriting map: the first row with the
target id is found again, with its status replaced and nothing else. -/
theorem find?_map_setStatus (pid : Nat) (s : String) (l : List Pickup) :
    ∀ p, l.find? (fun q => q.id == pid) = some p →
      (l.map (fun q => if q.id == pid then { q with status := s } else q)).find?
        (fun q => q.id == pid) = some { p with status := s } := by
  induction l with
  | nil => simp
  | cons a t ih =>
      intro p h
      cases ha : (a.id == pid) with
      | true =>
          rw [@List.find?_cons_of_pos Pickup (fun q => q.id == pid) a t ha] at h
          injection h with h
          subst h
          simp only [List.map_cons]
          have heq :
              ((if a.id == pid then { a with status := s } else a) : Pickup) =
                { a with status := s } := by
            simp [ha]
          rw [heq]
          exact @List.find?_cons_of_pos Pickup (fun q => q.id == pid)
            { a with status := s } _ (by simpa using ha)
      | false =>
          rw [@List.find?_cons_of_neg Pickup (fun q => q.id == pid) a t
            (by simp [ha])] at h
          simp only [List.map_cons]
          have heq :
              ((if a.id == pid then { a with status := s } else a) : Pickup) = a := by
            simp [ha]
          rw [heq, @List.find?_cons_of_neg Pickup (fun q => q.id == pid) a
            (t.map (fun q => if q.id == pid then { q with status := s } else q))
            (by simp [ha])]
          exact ih p h

theorem framePreserved_refl (pid : Nat) (ps : List Pickup) :
    framePreserved pid ps ps :=
  ⟨rfl, fun _ _ _ => ⟨rfl, rfl, rfl, rfl, rfl, rfl, rfl, fun _ => rfl⟩⟩

theorem framePreserved_map (pid : Nat) (s : String) (ps : List Pickup) :
    framePreserved pid ps
      (ps.map (fun q => if q.id == pid then { q with status := s } else q)) := by
  refine ⟨List.length_map _ _, ?_⟩
  intro i hi hi'
  simp only [List.get_eq_getElem, List.getElem_map]
  by_cases hq : ps[i].id = pid
  · simp [hq]
  · simp [hq]

/-! Theorems settling the claims. -/

/-- C1: a POST to /schedule without an authenticated session creates no
Pickup row.  (Enforcement is not actually via `login_required` — the
decorator order registers the unwrapped view — but the anonymous
`current_user` has no `id` attribute, so the handler fails with a 500
before any row is added; the database is returned unchanged.) -/
theorem schedule_post_unauthenticated_creates_no_pickup
    (f : Form) (db : Db) :
    schedule_post none f db = (db, Response.serverError) := rfl

/-- C8: an admin status update whose target pickup id matches no row
yields the framework-level 404 response and leaves the database
unchanged. -/
theorem update_status_missing_pickup_not_found
    (sess : Option Nat) (pickup_id : Nat) (f : Form) (db : Db) (u : User)
    (h1 : currentUser db sess = some u) (h2 : u.is_admin = true)
    (h3 : db.pickups.find? (fun q => q.id == pickup_id) = none) :
    update_status sess pickup_id f db = (db, Response.notFound) := by
  simp [update_status, h1, h2, h3]

theorem update_status_missing_pickup_not_found_witness :
    update_status (some 1) 99 [("status", "Recycled")] sampleDb =
      (sampleDb, Response.notFound) :=
  update_status_missing_pickup_not_found (some 1) 99 _ sampleDb adminUser
    (by decide) (by decide) (by decide)

/-- C4: an admin status update on an existing pickup with a non-empty
trimmed status string persists exactly the submitted string — the
string is arbitrary, with no membership check against the status
enumeration — and an empty trimmed string leaves the database
unchanged. -/
theorem update_status_persists_submitted_string
    (sess : Option Nat) (pickup_id : Nat) (f : Form) (db : Db)
    (u : User) (p : Pickup)
    (h1 : currentUser db sess = some u) (h2 : u.is_admin = true)
    (h3 : db.pickups.find? (fun q => q.id == pickup_id) = some p) :
    (pyStrip (formGetD f "status") ≠ "" →
      (update_status sess pickup_id f db).1.pickups.find?
          (fun q => q.id == pickup_id) =
        some { p with status := pyStrip (formGetD f "status") } ∧
      (update_status sess pickup_id f db).2 = Response.redirectAdminRequests) ∧
    (pyStrip (formGetD f "status") = "" →
      update_status sess pickup_id f db = (db, Response.redirectAdminRequests)) := by
  constructor
  · intro hs
    have hs' : (pyStrip (formGetD f "status") == "") = false := by
      simpa using hs
    constructor
    · simp only [update_status, h1, h2, h3, hs', if_true, Bool.false_eq_true,
        if_false]
      exact find?_map_setStatus pickup_id _ db.pickups p h3
    · simp [update_status, h1, h2, h3, hs']
  · intro hs
    simp [update_status, h1, h2, h3, hs]

theorem update_status_persists_submitted_string_witness :
    (update_status (some 1) 1 [("status", "Recycled")] sampleDb).1.pickups.find?
        (fun q => q.id == 1) =
      some { samplePickup with status := "Recycled" } ∧
    (update_status (some 1) 1 [("status", "Recycled")] sampleDb).2 =
      Response.redirectAdminRequests :=
  (update_status_persists_submitted_string (some 1) 1
      [("status", "Recycled")] sampleDb adminUser samplePickup
      (by decide) (by decide) (by decide)).1 (by decide)

/-- C9: an admin status update on an existing pickup can change only
the status field of rows carrying the target id: the users table is
unchanged, and every pickup row keeps its position, id, owner and all
contact fields, with the status also unchanged for every row whose id
differs from the target. -/
theorem update_status_frame
    (sess : Option Nat) (pickup_id : Nat) (f : Form) (db : Db)
    (u : User) (p : Pickup)
    (h1 : currentUser db sess = some u) (h2 : u.is_admin = true)
    (h3 : db.pickups.find? (fun q => q.id == pickup_id) = some p) :
    (update_status sess pickup_id f db).1.users = db.users ∧
    framePreserved pickup_id db.pickups
      (update_status sess pickup_id f db).1.pickups := by
  by_cases hs : pyStrip (formGetD f "status") = ""
  · have h : update_status sess pickup_id f db =
        (db, Response.redirectAdminRequests) := by
      simp [update_status, h1, h2, h3, hs]
    rw [h]
    exact ⟨rfl, framePreserved_refl _ _⟩
  · have hs' : (pyStrip (formGetD f "status") == "") = false := by
      simpa using hs
    have h : (update_status sess pickup_id f db).1 =
        { db with pickups :=
            db.pickups.map (fun q =>
              if q.id == pickup_id then
                { q with status := pyStrip (formGetD f "status") }
              else q) } := by
      simp [update_status, h1, h2, h3, hs']
    rw [h]
    exact ⟨rfl, framePreserved_map _ _ _⟩

theorem update_status_frame_witness :
    (update_status (some 1) 1 [("status", "Cancelled")] sampleDb).1.users =
      sampleDb.users ∧
    framePreserved 1 sampleDb.pickups
      (update_status (some 1) 1 [("status", "Cancelled")] sampleDb).1.pickups :=
  update_status_frame (some 1) 1 [("status", "Cancelled")] sampleDb
    adminUser samplePickup (by decide) (by decide) (by decide)

/-- C5: a POST to /schedule with an authenticated session inserts
exactly one Pickup row, owned by the session's user, with the five
trimmed form fields, status "Scheduled", and renders the confirmation
page carrying the new row's id; the users table is untouched. -/
theorem schedule_post_creates_owned_pickup
    (sess : Option Nat) (f : Form) (db : Db) (u : User)
    (h : currentUser db sess = some u) :
    (schedule_post sess f db).1.pickups =
      db.pickups ++
        [{ id := db.nextPickupId, user_id := u.id,
           name := pyStrip (formGetD f "name"),
           email := pyStrip (formGetD f "email"),
           address := pyStrip (formGetD f "address"),
           item := pyStrip (formGetD f "item"),
           date := pyStrip (formGetD f "date"),
           status := "Scheduled" }] ∧
    (schedule_post sess f db).1.users = db.users ∧
    (schedule_post sess f db).2 =
      Response.renderConfirm db.nextPickupId (pyStrip (formGetD f "name")) := by
  simp [schedule_post, h]

theorem schedule_post_creates_owned_pickup_witness :
    (schedule_post (some 2) schedForm sampleDb).1.pickups =
      sampleDb.pickups ++
        [{ id := sampleDb.nextPickupId, user_id := aliceUser.id,
           name := pyStrip (formGetD schedForm "name"),
           email := pyStrip (formGetD schedForm "email"),
           address := pyStrip (formGetD schedForm "address"),
           item := pyStrip (formGetD schedForm "item"),
           date := pyStrip (formGetD schedForm "date"),
           status := "Scheduled" }] ∧
    (schedule_post (some 2) schedForm sampleDb).1.users = sampleDb.users ∧
    (schedule_post (some 2) schedForm sampleDb).2 =
      Response.renderConfirm sampleDb.nextPickupId
        (pyStrip (formGetD schedForm "name")) :=
  schedule_post_creates_owned_pickup (some 2) schedForm sampleDb aliceUser
    (by decide)

/-- C2: two registration submissions with the same trimmed, lowercased
email create at most one User row: when the first succeeds, the second
re-renders the registration form, writes nothing, and leaves the
session as it was. -/
theorem register_duplicate_email_single_user
    (hash : String → String) (f1 f2 : Form) (db : Db) (sess : Option Nat)
    (heq : normEmail f2 = normEmail f1)
    (he : normEmail f1 ≠ "")
    (hp : formGetD f1 "password" ≠ "")
    (hnew : db.users.find? (fun u => u.email == normEmail f1) = none) :
    (register_post hash f1 db sess).1.users.length = db.users.length + 1 ∧
    register_post hash f2 (register_post hash f1 db sess).1
        (register_post hash f1 db sess).2.1 =
      ((register_post hash f1 db sess).1,
       (register_post hash f1 db sess).2.1,
       Response.renderRegisterForm) := by
  have he' : (normEmail f1 == "") = false := by simpa using he
  have hp' : (formGetD f1 "password" == "") = false := by simpa using hp
  have h1 : register_post hash f1 db sess =
      ({ db with
          users := db.users ++
            [{ id := db.nextUserId, email := normEmail f1,
               password_hash := hash (formGetD f1 "password"),
               is_admin := truthy (formGet f1 "is_admin") }],
          nextUserId := db.nextUserId + 1 },
       some db.nextUserId, Response.redirectIndex) := by
    simp [register_post, he', hp', hnew]
  rw [h1]
  refine ⟨by simp, ?_⟩
  have hfind : ((db.users ++
      [({ id := db.nextUserId, email := normEmail f1,
          password_hash := hash (formGetD f1 "password"),
          is_admin := truthy (formGet f1 "is_admin") } : User)]).find?
        (fun u => u.email == normEmail f1)).isSome = true := by
    rw [List.find?_append, hnew]
    simp
  by_cases hp2 : formGetD f2 "password" = ""
  · simp [register_post, heq, he', hp2]
  · have hp2' : (formGetD f2 "password" == "") = false := by simpa using hp2
    simp [register_post, heq, he', hp2', hfind]

theorem register_duplicate_email_single_user_witness :
    (register_post (fun s => s) regForm sampleDb none).1.users.length =
      sampleDb.users.length + 1 ∧
    register_post (fun s => s) regFormDup
        (register_post (fun s => s) regForm sampleDb none).1
        (register_post (fun s => s) regForm sampleDb none).2.1 =
      ((register_post (fun s => s) regForm sampleDb none).1,
       (register_post (fun s => s) regForm sampleDb none).2.1,
       Response.renderRegisterForm) :=
  register_duplicate_email_single_user (fun s => s) regForm regFormDup
    sampleDb none (by decide) (by decide) (by decide) (by decide)

/-- C3: a login whose password fails the check against the stored hash
of the user found by the trimmed, lowercased email (or where no user
matches) leaves the session unchanged and re-renders the login form;
and starting from no session, the session becomes some user only when
that user was found by email and the password check succeeded. -/
theorem login_wrong_password_no_session
    (check : String → String → Bool) (f : Form) (db : Db)
    (sess : Option Nat) :
    ((∀ u ∈ db.users, u.email = normEmail f →
        check u.password_hash (formGetD f "password") = false) →
      login_post check f db sess = (sess, Response.renderLoginForm)) ∧
    (∀ uid, sess = none → (login_post check f db sess).1 = some uid →
      ∃ u, db.users.find? (fun x => x.email == normEmail f) = some u ∧
        check u.password_hash (formGetD f "password") = true ∧
        uid = u.id) := by
  constructor
  · intro hno
    cases hfind : db.users.find? (fun x => x.email == normEmail f) with
    | none => simp [login_post, hfind]
    | some u =>
        have hmem := List.mem_of_find?_eq_some hfind
        have hemail : u.email = normEmail f := by
          simpa using List.find?_some hfind
        have hc := hno u hmem hemail
        simp [login_post, hfind, hc]
  · intro uid hsess huid
    subst hsess
    cases hfind : db.users.find? (fun x => x.email == normEmail f) with
    | none => simp [login_post, hfind] at huid
    | some u =>
        by_cases hc : check u.password_hash (formGetD f "password") = true
        · refine ⟨u, rfl, hc, ?_⟩
          have hl : (login_post check f db none).1 = some u.id := by
            simp [login_post, hfind, hc]
          rw [hl] at huid
          exact (Option.some.inj huid).symm
        · simp [login_post, hfind, hc] at huid

theorem login_wrong_password_no_session_witness :
    login_post (fun st pw => st == pw) loginBadForm sampleDb none =
      (none, Response.renderLoginForm) :=
  (login_wrong_password_no_session (fun st pw => st == pw) loginBadForm
    sampleDb none).1 (by decide)

/-- C6: a GET to /requests by an authenticated non-admin redirects home
with the database unchanged; for an admin it lists all pickups sorted
by id descending (a permutation of the pickups table, pairwise
descending by id). -/
theorem admin_requests_redirects_non_admin
    (sess : Option Nat) (db : Db) (u : User)
    (h : currentUser db sess = some u) :
    (u.is_admin = false →
      admin_requests sess db = (db, Response.redirectIndex)) ∧
    (u.is_admin = true →
      admin_requests sess db =
        (db, Response.renderAdminList (orderByIdDesc db.pickups)) ∧
      (orderByIdDesc db.pickups).Perm db.pickups ∧
      (orderByIdDesc db.pickups).Pairwise idDesc) := by
  constructor
  · intro ha
    simp [admin_requests, h, ha]
  · intro ha
    exact ⟨by simp [admin_requests, h, ha],
      List.perm_insertionSort idDesc db.pickups,
      List.sorted_insertionSort idDesc db.pickups⟩

theorem admin_requests_redirects_non_admin_witness :
    admin_requests (some 2) sampleDb = (sampleDb, Response.redirectIndex) :=
  (admin_requests_redirects_non_admin (some 2) sampleDb aliceUser
    (by decide)).1 (by decide)

/-- C7: the /my-pickups listing of an authenticated user holds exactly
the pickups whose owner reference is that user's id (so a pickup of a
different user never appears), sorted by id descending; the database
is unchanged. -/
theorem my_pickups_lists_only_own
    (sess : Option Nat) (db : Db) (u : User)
    (h : currentUser db sess = some u) :
    ∃ l, my_pickups sess db = (db, Response.renderMyPickups l) ∧
      l.Perm (db.pickups.filter (fun p => p.user_id == u.id)) ∧
      (∀ p, p ∈ l ↔ p ∈ db.pickups ∧ p.user_id = u.id) ∧
      l.Pairwise idDesc := by
  have hperm :
      (orderByIdDesc (db.pickups.filter (fun p => p.user_id == u.id))).Perm
        (db.pickups.filter (fun p => p.user_id == u.id)) :=
    List.perm_insertionSort idDesc _
  refine ⟨orderByIdDesc (db.pickups.filter (fun p => p.user_id == u.id)),
    by simp [my_pickups, h], hperm, ?_,
    List.sorted_insertionSort idDesc _⟩
  intro p
  rw [hperm.mem_iff, List.mem_filter]
  simp

theorem my_pickups_lists_only_own_witness :
    ∃ l, my_pickups (some 2) sampleDb =
        (sampleDb, Response.renderMyPickups l) ∧
      l.Perm (sampleDb.pickups.filter (fun p => p.user_id == aliceUser.id)) ∧
      (∀ p, p ∈ l ↔ p ∈ sampleDb.pickups ∧ p.user_id = aliceUser.id) ∧
      l.Pairwise idDesc :=
  my_pickups_lists_only_own (some 2) sampleDb aliceUser (by decide)

/-- C10, counterexample to the claim as stated: a registration form
that CONTAINS the `is_admin` field (with an empty value) succeeds yet
creates the user with the admin flag cleared — the code computes
`bool(form.get("is_admin"))`, not the presence of the field. -/
theorem register_admin_flag_presence_counterexample :
    (formGet regAdminEmptyForm "is_admin").isSome = true ∧
    (register_post (fun s => s) regAdminEmptyForm emptyDb none).1.users =
      [{ id := 1, email := "c@x.com", password_hash := "pw",
         is_admin := false }] := by
  decide

/-- C10 (amended): for every successful registration — available with
no session and no authorization check — the created user's admin flag
is the Python truthiness of the submitted `is_admin` value: set exactly
when the field is present with a non-empty value, as it is when the
registration form's checkbox is checked (value "on"). -/
theorem register_admin_flag_from_form
    (hash : String → String) (f : Form) (db : Db) (sess : Option Nat)
    (he : normEmail f ≠ "") (hp : formGetD f "password" ≠ "")
    (hnew : db.users.find? (fun u => u.email == normEmail f) = none) :
    (register_post hash f db sess).1.users =
      db.users ++
        [{ id := db.nextUserId, email := normEmail f,
           password_hash := hash (formGetD f "password"),
           is_admin := truthy (formGet f "is_admin") }] ∧
    (register_post hash f db sess).2.1 = some db.nextUserId ∧
    (register_post hash f db sess).2.2 = Response.redirectIndex := by
  have he' : (normEmail f == "") = false := by simpa using he
  have hp' : (formGetD f "password" == "") = false := by simpa using hp
  simp [register_post, he', hp', hnew]

theorem register_admin_flag_from_form_witness :
    (register_post (fun s => s) regAdminForm emptyDb none).1.users =
      emptyDb.users ++
        [{ id := emptyDb.nextUserId, email := normEmail regAdminForm,
           password_hash := formGetD regAdminForm "password",
           is_admin := truthy (formGet regAdminForm "is_admin") }] ∧
    (register_post (fun s => s) regAdminForm emptyDb none).2.1 =
      some emptyDb.nextUserId ∧
    (register_post (fun s => s) regAdminForm emptyDb none).2.2 =
      Response.redirectIndex :=
  register_admin_flag_from_form (fun s => s) regAdminForm emptyDb none
    (by decide) (by decide) (by decide)

end EWaste
